import Mathlib

/-!
Shallow embedding of the theme/sentiment classification-and-aggregation engine
of the repository (the two review-analyzer scripts src/rev2.py and src/tt.py),
together with proofs settling the frozen claims about it.

Modelling conventions:
* Python dynamic field values are modelled by the inductive `FieldVal`
  (absent key, numeric value as an exact rational, or string value).
* Python floats are modelled by `Rat`; the percentages and averages that the
  source computes are exact rationals of tiny denominator, so the comparisons
  against the integer thresholds (4, 7, 20, 15, 30, 50000, ...) agree with the
  double-precision comparisons of the source.
* A Python function that can let an exception escape is modelled with
  `Option` (`none` = an uncaught exception); exceptions that the source
  catches itself (the bare except of the salary parser) are folded into the
  value the handler returns, exactly as the source does.
* Iteration over a Python set of theme names (`all_unique_themes`) has an
  implementation-defined order in CPython (it depends on hash values and on
  insertion history, which itself follows review order).  The aggregators
  therefore take the enumeration of the set as an explicit `order`
  argument: a legitimate enumeration is any permutation of the tallied
  themes (`candidateThemes`), and the canonical wrappers instantiate it
  with catalog order, one legitimate choice.
-/

inductive Polarity
  | positive
  | negative
  | neutral
deriving DecidableEq, Repr

inductive FieldVal
  | absent
  | num (q : Rat)
  | str (s : String)
deriving DecidableEq, Repr

/-- Python truthiness of a review field: a missing key, the number 0 and the
empty string are falsy, everything else is truthy. -/
def truthy : FieldVal → Bool
  | .absent => false
  | .num q => q != 0
  | .str s => s != ""

/-- A review record; every key of the dictionaries appearing in the two
scripts that the analyzers ever read is a field here. -/
structure Review where
  headline : FieldVal
  pros : FieldVal
  cons : FieldVal
  work_life_balance : FieldVal
  career_growth : FieldVal
  leadership_management : FieldVal
  innovation : FieldVal
  compensation_range : FieldVal
  currency : FieldVal
  location : FieldVal
deriving DecidableEq, Repr

def emptyReview : Review :=
  { headline := .absent, pros := .absent, cons := .absent,
    work_life_balance := .absent, career_growth := .absent,
    leadership_management := .absent, innovation := .absent,
    compensation_range := .absent, currency := .absent, location := .absent }

/-- The per-review result dictionary: polarity to list of theme names. -/
structure ReviewResult where
  positive : List String
  negative : List String
  neutral : List String
deriving DecidableEq, Repr

def bucketOf (res : ReviewResult) : Polarity → List String
  | .positive => res.positive
  | .negative => res.negative
  | .neutral => res.neutral

/-- The rendered corpus summary: polarity to ordered rendered strings. -/
structure Summary where
  positive : List String
  negative : List String
  neutral : List String
deriving DecidableEq, Repr

/-- Python substring containment, `pat in hay`. -/
def strContains (hay pat : String) : Bool :=
  hay.toList.tails.any (fun suff => pat.toList.isPrefixOf suff)

/-- `text.lower()` over the characters (ASCII, like every keyword and
theme name of the source). -/
def toLowerStr (s : String) : String :=
  String.mk (s.toList.map Char.toLower)

/-- `s.split(sep)` for a one-character separator, Python semantics:
splitting the empty string gives one empty part, consecutive separators
give empty parts. -/
def splitChar (sep : Char) : List Char → List (List Char)
  | [] => [[]]
  | c :: rest =>
      let r := splitChar sep rest
      if c = sep then [] :: r
      else
        match r with
        | [] => [[c]]
        | h :: t => (c :: h) :: t

/-- `salary_range.split('-')`. -/
def splitDash (s : String) : List String :=
  (splitChar (Char.ofNat 45) s.toList).map String.mk

/-- Python string comparison: lexicographic on code points. -/
def charListLe : List Char → List Char → Bool
  | [], _ => true
  | _ :: _, [] => false
  | a :: as, b :: bs => if a = b then charListLe as bs else decide (a.toNat < b.toNat)

def strLe (a b : String) : Bool :=
  charListLe a.toList b.toList

/-- The integer a side of the salary range parses to:
keep the decimal digits of the string in order and read them as a number,
`int(''.join(filter(str.isdigit, val)))`; `none` models the ValueError that
`int` raises when no digit is left. -/
def digitsVal (s : String) : Option Nat :=
  let ds := s.toList.filter Char.isDigit
  if ds.isEmpty then none
  else some (ds.foldl (fun a c => 10 * a + (c.toNat - 48)) 0)

/-- `sorted(list(set(xs)))`: the ascending sorted list of the distinct
elements of `xs`. -/
def insertAsc (x : String) : List String → List String
  | [] => [x]
  | y :: ys => if strLe x y then x :: y :: ys else y :: insertAsc x ys

def sortAsc (l : List String) : List String :=
  l.foldl (fun acc x => insertAsc x acc) []

def dedupSort (l : List String) : List String :=
  sortAsc l.dedup

/-- Stable descending insertion sort by an integer key; models Python
`sorted(..., key=..., reverse=True)`, which is stable. -/
def insertDescBy {α : Type} (key : α → Int) (x : α) : List α → List α
  | [] => [x]
  | y :: ys => if key y < key x then x :: y :: ys else y :: insertDescBy key x ys

def sortDescBy {α : Type} (key : α → Int) (l : List α) : List α :=
  l.foldl (fun acc x => insertDescBy key x acc) []

/-- VADER compound score to overall text polarity (thresholds 0.05). -/
def sentimentOf (c : Rat) : Polarity :=
  if c ≥ 1/20 then .positive
  else if c ≤ -(1/20) then .negative
  else .neutral

/-- `sum(values) / 2` of the two parsed salary sides. -/
def avgOf (vals : List Nat) : Rat :=
  ((vals.foldl (· + ·) 0 : Nat) : Rat) / 2

/-- avg above high gives positive, below low gives negative, else neutral. -/
def salaryVerdict (avg hi lo : Rat) : Polarity :=
  if hi < avg then .positive
  else if avg < lo then .negative
  else .neutral

/-- `theme.replace('_', ' ').title()`, the fallback rendering of a theme
name that has no entry in the description table. -/
def capitalizeWord (w : String) : String :=
  match w.toList with
  | [] => ""
  | c :: cs => String.mk (c.toUpper :: cs)

def joinWith (sep : String) : List String → String
  | [] => ""
  | [x] => x
  | x :: xs => x ++ sep ++ joinWith sep xs

def titleize (t : String) : String :=
  joinWith " " (((splitChar (Char.ofNat 95) t.toList).map String.mk).map capitalizeWord)

/-- One-decimal fixed-point rendering of a percentage, `f"{p:.1f}"`
(rounding the exact rational half up; the rendered percentages of every
statement below are exact at one decimal, where the two rounding rules
agree). -/
def fmt1 (q : Rat) : String :=
  let n : Int := (q * 10 + 1/2).floor
  toString (n / 10) ++ "." ++ toString (n % 10)

namespace Rev2

/-! The flat-catalog analyzer of src/rev2.py. -/

def RATING_THRESHOLD_HIGH : Rat := 7
def RATING_THRESHOLD_LOW : Rat := 4

/-- The theme keyword catalog `self.themes` of src/rev2.py, in definition
order, keywords verbatim. -/
def themes : List (String × List String) := [
  ("work_culture", [
    "culture", "environment", "atmosphere", "workplace", "team", "collaboration",
    "friendly", "inclusive", "diverse", "supportive", "transparency", "ethics",
    "values", "diversity", "inclusion", "respect", "belonging", "community",
    "social", "fun", "positive", "toxic", "politics", "bureaucracy"]),
  ("leadership", [
    "leadership", "management", "direction", "strategy", "vision", "leader",
    "manager", "executive", "boss", "supervisor", "communication", "transparency",
    "decision", "guidance", "mentorship", "coaching", "feedback", "recognition",
    "micromanagement", "hierarchy", "direction", "clarity"]),
  ("compensation", [
    "salary", "benefits", "pay", "compensation", "bonus", "package", "stock",
    "insurance", "retirement", "401k", "raise", "equity", "options", "rsu",
    "healthcare", "dental", "vision", "pto", "vacation", "leave", "perks",
    "allowance", "reimbursement", "overtime", "commission"]),
  ("work_life_balance", [
    "balance", "flexibility", "hours", "schedule", "remote", "time",
    "wlb", "flexible", "workload", "overtime", "vacation", "burnout",
    "stress", "pressure", "deadline", "weekend", "holiday", "family",
    "personal", "hybrid", "work from home", "wfh", "commute"]),
  ("career_growth", [
    "growth", "learning", "development", "opportunity", "promotion", "career",
    "training", "mentor", "skill", "advance", "progress", "education",
    "certification", "conference", "workshop", "upskill", "challenge",
    "responsibility", "exposure", "path", "trajectory", "potential"]),
  ("innovation", [
    "innovation", "technology", "creative", "innovative", "cutting-edge", "modern",
    "tools", "tech", "startup", "agile", "future", "research", "development",
    "experimentation", "breakthrough", "transformation", "digital", "automation",
    "ai", "machine learning", "cloud", "stack"]),
  ("job_security", [
    "security", "stable", "stability", "layoff", "redundancy", "permanent",
    "contract", "temporary", "future", "uncertainty", "downsizing", "reorganization",
    "restructuring", "merger", "acquisition", "full-time", "part-time"]),
  ("office_environment", [
    "office", "workspace", "facility", "amenities", "location", "parking",
    "cafeteria", "food", "gym", "ergonomic", "desk", "equipment", "supplies",
    "building", "infrastructure", "safety", "clean", "comfortable"]),
  ("team_dynamics", [
    "team", "colleague", "coworker", "peer", "collaboration", "communication",
    "support", "morale", "conflict", "politics", "drama", "cooperation",
    "teamwork", "relationship", "dynamic", "interaction", "coordination"]),
  ("company_performance", [
    "performance", "growth", "revenue", "profit", "market", "competitor",
    "industry", "success", "failure", "strategy", "direction", "leadership",
    "management", "vision", "mission", "goal", "objective", "target"]),
  ("diversity_inclusion", [
    "diversity", "inclusion", "equality", "equity", "discrimination", "bias",
    "harassment", "representation", "minority", "gender", "race", "age",
    "disability", "lgbt", "culture", "background", "perspective"]),
  ("project_management", [
    "project", "deadline", "timeline", "planning", "execution", "delivery",
    "scrum", "agile", "waterfall", "methodology", "process", "workflow",
    "coordination", "organization", "requirement", "specification"])]

def themeNames : List String := themes.map (fun tk => tk.1)

/-- The classification a single numeric rating field receives inside the
loop of `_analyze_numeric_ratings`: at or above HIGH positive, at or below
LOW negative, and nothing at all in between or for a non-numeric value. -/
def ratingOf (f : FieldVal) : Option Polarity :=
  match f with
  | .num q =>
      if q ≥ RATING_THRESHOLD_HIGH then some .positive
      else if q ≤ RATING_THRESHOLD_LOW then some .negative
      else none
  | _ => none

/-- `_analyze_numeric_ratings`: the four rating fields in the order of the
`rating_fields` dict, each mapped to its theme when it yields a verdict. -/
def analyze_numeric_ratings (r : Review) : List (String × Polarity) :=
  ([("work_life_balance", r.work_life_balance),
    ("career_growth", r.career_growth),
    ("leadership", r.leadership_management),
    ("innovation", r.innovation)]).filterMap
    (fun ft => (ratingOf ft.2).map (fun pol => (ft.1, pol)))

/-- `_analyze_salary_range` of src/rev2.py.  Total: the bare except of the
source catches every parsing failure, returned as neutral. -/
def analyze_salary_range (salary_range currency : FieldVal) : Polarity :=
  if truthy salary_range && truthy currency then
    match salary_range with
    | .str s =>
        let parts := (splitDash s).map digitsVal
        if parts.any (fun o => o.isNone) then .neutral
        else if (parts.filterMap id).length = 2 then
          salaryVerdict (avgOf (parts.filterMap id)) 100000 50000
        else .neutral
    | _ => .neutral
  else .neutral

/-- `_analyze_text` of src/rev2.py on a string: the catalog themes whose
keyword list matches the lowercased text, in catalog order, and the
scorer-derived overall sentiment. -/
def analyze_text (scorer : String → Rat) (text : String) : List String × Polarity :=
  if text = "" then ([], .neutral)
  else
    ((themes.filter (fun tk => tk.2.any (fun kw => strContains (toLowerStr text) kw))).map
      (fun tk => tk.1),
     sentimentOf (scorer text))

/-- The contribution of one text field inside `analyze_review`:
skipped when missing or falsy, analyzed when a nonempty string, and an
uncaught AttributeError (from `text.lower()`) when a truthy non-string. -/
def textContrib (scorer : String → Rat) (f : FieldVal) (forced : Option Polarity) :
    Option (List (Polarity × String)) :=
  match f with
  | .absent => some []
  | .str s =>
      if s = "" then some []
      else
        let pr := analyze_text scorer s
        some (pr.1.map (fun t => (forced.getD pr.2, t)))
  | .num q => if q = 0 then some [] else none

/-- `analyze_review` of src/rev2.py.  `none` models an exception escaping. -/
def analyze_review (scorer : String → Rat) (r : Review) : Option ReviewResult :=
  match textContrib scorer r.headline none,
        textContrib scorer r.pros (some .positive),
        textContrib scorer r.cons (some .negative) with
  | some h, some p, some c =>
      let pairs : List (Polarity × String) :=
        (analyze_numeric_ratings r).map (fun pr => (pr.2, pr.1))
        ++ (if r.compensation_range != FieldVal.absent && r.currency != FieldVal.absent
            then [(analyze_salary_range r.compensation_range r.currency, "compensation")]
            else [])
        ++ h ++ p ++ c
      some { positive := dedupSort ((pairs.filter (fun pr => pr.1 == Polarity.positive)).map (fun pr => pr.2)),
             negative := dedupSort ((pairs.filter (fun pr => pr.1 == Polarity.negative)).map (fun pr => pr.2)),
             neutral := dedupSort ((pairs.filter (fun pr => pr.1 == Polarity.neutral)).map (fun pr => pr.2)) }
  | _, _, _ => none

/-- The `theme_texts` description table of `_generate_theme_text`. -/
def theme_texts : List (String × String) := [
  ("work_culture", "Strong company culture and positive work environment"),
  ("diversity", "Inclusive workplace with strong diversity initiatives"),
  ("ethics", "Strong ethical practices and corporate values"),
  ("social_impact", "Meaningful social impact and community engagement"),
  ("collaboration", "Collaborative and team-oriented environment"),
  ("leadership", "Effective leadership and management team"),
  ("communication", "Clear communication and transparency from management"),
  ("strategy", "Strong strategic direction and company vision"),
  ("mentorship", "Quality mentorship and professional guidance"),
  ("recognition", "Good employee recognition and appreciation practices"),
  ("compensation", "Competitive compensation and benefits package"),
  ("equity", "Attractive equity and stock options"),
  ("healthcare", "Comprehensive healthcare and wellness benefits"),
  ("retirement", "Strong retirement and financial benefits"),
  ("perks", "Valuable workplace perks and amenities"),
  ("work_life_balance", "Good work-life balance and flexible scheduling"),
  ("remote_work", "Effective remote work policies and support"),
  ("time_off", "Generous vacation and time-off policies"),
  ("workload", "Manageable workload and reasonable expectations"),
  ("flexibility", "Flexible work arrangements and scheduling"),
  ("career_growth", "Excellent career growth and learning opportunities"),
  ("training", "Comprehensive training and development programs"),
  ("skills_development", "Strong focus on skills development and learning"),
  ("promotion", "Clear promotion paths and advancement opportunities"),
  ("education", "Good educational benefits and learning resources"),
  ("innovation", "Strong focus on innovation and modern technologies"),
  ("project_variety", "Diverse and interesting project opportunities"),
  ("creativity", "Encouragement of creativity and new ideas"),
  ("tools", "Access to modern tools and technologies"),
  ("autonomy", "High degree of autonomy and decision-making freedom"),
  ("office_environment", "Well-designed and comfortable office space"),
  ("equipment", "High-quality equipment and resources"),
  ("location", "Convenient office location and accessibility"),
  ("facilities", "Great office facilities and amenities"),
  ("safety", "Strong workplace safety and security measures"),
  ("team_quality", "High-caliber colleagues and strong team dynamics"),
  ("peer_support", "Supportive peer relationships and teamwork"),
  ("team_spirit", "Strong team spirit and camaraderie"),
  ("knowledge_sharing", "Good knowledge sharing and collaboration"),
  ("team_diversity", "Diverse and inclusive team composition"),
  ("company_stability", "Strong company stability and market position"),
  ("growth_potential", "Excellent company growth and future prospects"),
  ("job_security", "Good job security and stability"),
  ("market_position", "Strong market presence and industry standing"),
  ("financial_health", "Solid financial performance and stability"),
  ("client_relations", "Positive client relationships and interactions"),
  ("project_management", "Effective project management practices"),
  ("deadlines", "Reasonable deadlines and project timelines"),
  ("client_quality", "High-quality clients and project opportunities"),
  ("workflow", "Efficient workflow and processes")]

/-- `_generate_theme_text`: description (table entry, or the title-cased
theme name) followed by the one-decimal percentage. -/
def renderTheme (t : String) (p : Rat) : String :=
  ((theme_texts.lookup t).getD (titleize t)) ++ " (" ++ fmt1 p ++ "% of reviews)"

/-- `(count / total_reviews) * 100`. -/
def pctOf (count total : Nat) : Rat :=
  ((count : Rat) / (total : Rat)) * 100

/-- `max(pos_pct, neg_pct, neu_pct)` of a theme. -/
def maxPct (tally : Polarity → String → Nat) (total : Nat) (t : String) : Rat :=
  max (pctOf (tally .positive t) total)
    (max (pctOf (tally .negative t) total) (pctOf (tally .neutral t) total))

/-- The dominance rule of `generate_summary` in src/rev2.py: the polarity
holding the maximum percentage, ties preferring positive then negative over
neutral, together with the reported percentage. -/
def dominantOf (pos neg neu : Rat) : Polarity × Rat :=
  let m := max pos (max neg neu)
  if m = pos ∧ m > 0 then (.positive, pos)
  else if m = neg ∧ m > 0 then (.negative, neg)
  else (.neutral, neu)

/-- The contents of the Python set `all_unique_themes`: every theme with a
nonzero count under some polarity, listed in catalog order. -/
def candidateThemes (tally : Polarity → String → Nat) : List String :=
  themeNames.filter (fun t =>
    tally .positive t + tally .negative t + tally .neutral t != 0)

/-- The `theme_sentiments` dict built while iterating the set
`all_unique_themes` in the enumeration `order`: every visited tallied theme
whose maximum polarity percentage reaches the 20 percent inclusion
threshold, with its dominant polarity and percentage.  CPython fixes some
enumeration of the set, dependent on hash values and insertion history and
therefore implementation-defined; the embedding takes that enumeration as
an explicit argument, and a legitimate enumeration is any permutation of
`candidateThemes tally`. -/
def theme_sentimentsOrd (order : List String) (tally : Polarity → String → Nat)
    (total : Nat) : List (String × Polarity × Rat) :=
  order.filterMap
    (fun t =>
      let pos := pctOf (tally .positive t) total
      let neg := pctOf (tally .negative t) total
      let neu := pctOf (tally .neutral t) total
      if 20 ≤ max pos (max neg neu) then some (t, dominantOf pos neg neu) else none)

/-- `theme_sentiments` under the catalog enumeration of the tallied-theme
set, one legitimate iteration order. -/
def theme_sentiments (tally : Polarity → String → Nat) (total : Nat) :
    List (String × Polarity × Rat) :=
  theme_sentimentsOrd (candidateThemes tally) tally total

/-- The sort key of the final per-polarity sort: the source renders the
percentage at one decimal and re-parses it out of the string, so the key it
compares is exactly the percentage rounded to one decimal; we compare ten
times that value as an integer. -/
def sortKey (pr : String × Polarity × Rat) : Int :=
  (pr.2.2 * 10 + 1/2).floor

/-- One polarity group of the summary: the included themes of that dominant
polarity, rendered, sorted descending by rendered percentage (stable, like
Python sorted). -/
def bucketOrd (order : List String) (tally : Polarity → String → Nat)
    (total : Nat) (pol : Polarity) : List String :=
  (sortDescBy sortKey
    ((theme_sentimentsOrd order tally total).filter (fun pr => pr.2.1 == pol))).map
    (fun pr => renderTheme pr.1 pr.2.2)

/-- The summary built from a tally and the review count, iterating the
tallied-theme set in the enumeration `order`. -/
def summaryFromTallyOrd (order : List String) (tally : Polarity → String → Nat)
    (total : Nat) : Summary :=
  { positive := bucketOrd order tally total .positive,
    negative := bucketOrd order tally total .negative,
    neutral := bucketOrd order tally total .neutral }

/-- `all_themes[sentiment][theme]` after the tally loop: the number of
analyzed reviews whose result lists the theme under the polarity. -/
def tallyOf (os : List (Option ReviewResult)) (pol : Polarity) (t : String) : Nat :=
  os.countP (fun o =>
    match o with
    | some res => (bucketOf res pol).contains t
    | none => false)

/-- `generate_summary` of src/rev2.py with the set enumeration explicit.
`none` models an exception escaping from one of the per-review analyses. -/
def generate_summaryOrd (order : List String) (scorer : String → Rat)
    (reviews : List Review) : Option Summary :=
  if (reviews.map (analyze_review scorer)).any (fun o => o.isNone) then none
  else some (summaryFromTallyOrd order
    (tallyOf (reviews.map (analyze_review scorer))) reviews.length)

/-- `generate_summary` of src/rev2.py under the catalog enumeration of the
tallied-theme set. -/
def generate_summary (scorer : String → Rat) (reviews : List Review) : Option Summary :=
  generate_summaryOrd
    (candidateThemes (tallyOf (reviews.map (analyze_review scorer)))) scorer reviews

/-- The number of reviews of the corpus whose analysis mentions the theme
under any polarity (the reading of theme occurrence that claim C8 uses). -/
def themeOccurrences (scorer : String → Rat) (reviews : List Review) (t : String) : Nat :=
  reviews.countP (fun r =>
    match analyze_review scorer r with
    | some res => (res.positive.contains t || res.negative.contains t)
        || res.neutral.contains t
    | none => false)

end Rev2

namespace Tt

/-! The per-polarity-catalog analyzer of src/tt.py. -/

def RATING_THRESHOLD_HIGH : Rat := 7
def RATING_THRESHOLD_LOW : Rat := 4

/-- The per-polarity keyword catalog `self.themes` of src/tt.py. -/
def themes : List (String × List (Polarity × List String)) := [
  ("work_culture", [
    (.positive, ["collaborative", "inclusive", "supportive", "friendly", "positive"]),
    (.negative, ["toxic", "hostile", "political", "bureaucratic", "unfriendly"]),
    (.neutral, ["formal", "casual", "traditional", "startup-like", "corporate"])]),
  ("leadership", [
    (.positive, ["transparent", "inspiring", "approachable", "effective", "visionary"]),
    (.negative, ["micromanaging", "unclear", "disorganized", "absent", "poor"]),
    (.neutral, ["hands-off", "structured", "hierarchical", "decentralized"])]),
  ("compensation", [
    (.positive, ["competitive", "generous", "excellent", "comprehensive", "above-market"]),
    (.negative, ["low", "below-market", "inadequate", "unfair", "poor"]),
    (.neutral, ["standard", "industry-average", "market-rate", "typical"])]),
  ("work_life_balance", [
    (.positive, ["flexible", "balanced", "accommodating", "reasonable", "great"]),
    (.negative, ["demanding", "stressful", "burnout", "overwhelming", "poor"]),
    (.neutral, ["structured", "predictable", "regular", "standard"])]),
  ("career_growth", [
    (.positive, ["excellent", "promising", "abundant", "clear", "supported"]),
    (.negative, ["limited", "stagnant", "unclear", "rare", "nonexistent"]),
    (.neutral, ["steady", "gradual", "traditional", "standard"])]),
  ("innovation", [
    (.positive, ["cutting-edge", "innovative", "advanced", "modern", "progressive"]),
    (.negative, ["outdated", "legacy", "behind", "obsolete", "stagnant"]),
    (.neutral, ["established", "stable", "conventional", "standard"])])]

def themeNames : List String := themes.map (fun tk => tk.1)

/-- The per-field classification of `_analyze_numeric_ratings` in src/tt.py:
unlike src/rev2.py it assigns neutral to the middle band explicitly. -/
def ratingOf (f : FieldVal) : Option Polarity :=
  match f with
  | .num q =>
      if q ≥ RATING_THRESHOLD_HIGH then some .positive
      else if q ≤ RATING_THRESHOLD_LOW then some .negative
      else some .neutral
  | _ => none

def analyze_numeric_ratings (r : Review) : List (String × Polarity) :=
  ([("work_life_balance", r.work_life_balance),
    ("career_growth", r.career_growth),
    ("leadership", r.leadership_management),
    ("innovation", r.innovation)]).filterMap
    (fun ft => (ratingOf ft.2).map (fun pol => (ft.1, pol)))

/-- The remote-aware thresholds of `_analyze_salary_range` in src/tt.py.
`none` records the AttributeError of `location.lower()` on a truthy
non-string location, which the bare except turns into neutral. -/
def thresholds (loc : FieldVal) : Option (Rat × Rat) :=
  match loc with
  | .str ls =>
      if ls ≠ "" && strContains (toLowerStr ls) "remote" then some (90000, 45000)
      else some (100000, 50000)
  | .absent => some (100000, 50000)
  | .num q => if q = 0 then some (100000, 50000) else none

/-- `_analyze_salary_range` of src/tt.py, with the location hint. -/
def analyze_salary_range (salary_range currency loc : FieldVal) : Polarity :=
  if truthy salary_range && truthy currency then
    match salary_range with
    | .str s =>
        let parts := (splitDash s).map digitsVal
        if parts.any (fun o => o.isNone) then .neutral
        else if (parts.filterMap id).length = 2 then
          match thresholds loc with
          | some hl => salaryVerdict (avgOf (parts.filterMap id)) hl.1 hl.2
          | none => .neutral
        else .neutral
    | _ => .neutral
  else .neutral

/-- `_analyze_text` of src/tt.py on a string: every (theme, polarity) pair
whose keyword list matches the lowercased text.  The compound sentiment and
the tokenization that the source also computes are dead values there
(`sentiment_to_use` is never read), so they are omitted. -/
def analyze_text_buckets (text : String) : List (Polarity × String) :=
  (themes.map (fun tb =>
    tb.2.filterMap (fun pk =>
      if pk.2.any (fun kw => strContains (toLowerStr text) kw) then some (pk.1, tb.1)
      else none))).flatten

/-- One text field inside `analyze_review` of src/tt.py: matched themes go
to the forced polarity for pros and cons and to their matched keyword-list
polarity for the headline. -/
def textContrib (f : FieldVal) (forced : Option Polarity) :
    Option (List (Polarity × String)) :=
  match f with
  | .absent => some []
  | .str s =>
      if s = "" then some []
      else some ((analyze_text_buckets s).map (fun pr => (forced.getD pr.1, pr.2)))
  | .num q => if q = 0 then some [] else none

/-- `analyze_review` of src/tt.py.  The scorer argument is kept for
interface parity with src/rev2.py; the source calls the scorer but never
reads the value on any path. -/
def analyze_review (_scorer : String → Rat) (r : Review) : Option ReviewResult :=
  match textContrib r.headline none,
        textContrib r.pros (some .positive),
        textContrib r.cons (some .negative) with
  | some h, some p, some c =>
      let pairs : List (Polarity × String) :=
        (analyze_numeric_ratings r).map (fun pr => (pr.2, pr.1))
        ++ (if r.compensation_range != FieldVal.absent
            then [(analyze_salary_range r.compensation_range
                    (if r.currency = FieldVal.absent then FieldVal.str "USD" else r.currency)
                    r.location, "compensation")]
            else [])
        ++ h ++ p ++ c
      some { positive := dedupSort ((pairs.filter (fun pr => pr.1 == Polarity.positive)).map (fun pr => pr.2)),
             negative := dedupSort ((pairs.filter (fun pr => pr.1 == Polarity.negative)).map (fun pr => pr.2)),
             neutral := dedupSort ((pairs.filter (fun pr => pr.1 == Polarity.neutral)).map (fun pr => pr.2)) }
  | _, _, _ => none

/-- The `theme_texts` description table of src/tt.py. -/
def theme_texts : List (String × String) := [
  ("work_culture", "Company culture and work environment"),
  ("leadership", "Leadership and management approach"),
  ("compensation", "Compensation and benefits package"),
  ("work_life_balance", "Work-life balance practices"),
  ("career_growth", "Career development opportunities"),
  ("innovation", "Innovation and technological advancement"),
  ("work_structure", "Organizational structure and processes"),
  ("company_size", "Company size and operational scale"),
  ("industry_position", "Position within the industry"),
  ("market_focus", "Market focus and business approach"),
  ("project_complexity", "Project scope and complexity"),
  ("team_structure", "Team organization and dynamics"),
  ("communication_style", "Communication patterns and practices"),
  ("decision_making", "Decision-making processes"),
  ("change_management", "Approach to change and adaptation"),
  ("work_pace", "Work pace and delivery expectations")]

def renderTheme (t : String) (p : Rat) : String :=
  ((theme_texts.lookup t).getD (titleize t)) ++ " (" ++ fmt1 p ++ "% of reviews)"

/-- The balanced dominance rule of `generate_summary` in src/tt.py
(policy B of the spec): collapse to neutral near parity or below 30
percent, else the larger of positive and negative. -/
def dominantOf (pos neg neu : Rat) : Polarity × Rat :=
  if max pos neg < 30 ∨ |pos - neg| < 15 then (.neutral, neu + min pos neg)
  else if neg < pos then (.positive, pos)
  else (.negative, neg)

/-- The contents of the set `all_unique_themes` of src/tt.py, in catalog
order. -/
def candidateThemes (tally : Polarity → String → Nat) : List String :=
  themeNames.filter (fun t =>
    tally .positive t + tally .negative t + tally .neutral t != 0)

/-- The `theme_sentiments` dict of src/tt.py built while iterating the set
`all_unique_themes` in the enumeration `order` (implementation-defined in
CPython, taken as an explicit argument; a legitimate enumeration is any
permutation of `candidateThemes tally`): every visited tallied theme whose
policy-B percentage reaches the 15 percent inclusion threshold. -/
def theme_sentimentsOrd (order : List String) (tally : Polarity → String → Nat)
    (total : Nat) : List (String × Polarity × Rat) :=
  order.filterMap
    (fun t =>
      let pos := Rev2.pctOf (tally .positive t) total
      let neg := Rev2.pctOf (tally .negative t) total
      let neu := Rev2.pctOf (tally .neutral t) total
      let pr := dominantOf pos neg neu
      if 15 ≤ pr.2 then some (t, pr) else none)

/-- `theme_sentiments` of src/tt.py under the catalog enumeration of the
tallied-theme set, one legitimate iteration order. -/
def theme_sentiments (tally : Polarity → String → Nat) (total : Nat) :
    List (String × Polarity × Rat) :=
  theme_sentimentsOrd (candidateThemes tally) tally total

def bucketOrd (order : List String) (tally : Polarity → String → Nat)
    (total : Nat) (pol : Polarity) : List String :=
  (sortDescBy Rev2.sortKey
    ((theme_sentimentsOrd order tally total).filter (fun pr => pr.2.1 == pol))).map
    (fun pr => renderTheme pr.1 pr.2.2)

def summaryFromTallyOrd (order : List String) (tally : Polarity → String → Nat)
    (total : Nat) : Summary :=
  { positive := bucketOrd order tally total .positive,
    negative := bucketOrd order tally total .negative,
    neutral := bucketOrd order tally total .neutral }

/-- `generate_summary` of src/tt.py with the set enumeration explicit. -/
def generate_summaryOrd (order : List String) (scorer : String → Rat)
    (reviews : List Review) : Option Summary :=
  if (reviews.map (analyze_review scorer)).any (fun o => o.isNone) then none
  else some (summaryFromTallyOrd order
    (Rev2.tallyOf (reviews.map (analyze_review scorer))) reviews.length)

/-- `generate_summary` of src/tt.py under the catalog enumeration of the
tallied-theme set. -/
def generate_summary (scorer : String → Rat) (reviews : List Review) : Option Summary :=
  generate_summaryOrd
    (candidateThemes (Rev2.tallyOf (reviews.map (analyze_review scorer)))) scorer reviews

end Tt

/-- The code path of src/rev2.py and src/tt.py raises on a text field
exactly when it is a truthy non-string; this predicate carves out the safe
values of a text field. -/
def textFieldOk : FieldVal → Bool
  | .num q => q == 0
  | _ => true

/-- The percentage against which src/tt.py checks its 15 percent inclusion
threshold: the percentage component of its dominance rule. -/
def Tt.policyPct (tally : Polarity → String → Nat) (total : Nat) (t : String) : Rat :=
  (Tt.dominantOf (Rev2.pctOf (tally .positive t) total)
    (Rev2.pctOf (tally .negative t) total)
    (Rev2.pctOf (tally .neutral t) total)).2

/-- A review whose only signal is a single work_life_balance rating. -/
def wlbReview (q : Rat) : Review :=
  { emptyReview with work_life_balance := .num q }

/-- The end-to-end example review of the spec (claim C7). -/
def c7Review : Review :=
  { emptyReview with
    work_life_balance := .num 9, career_growth := .num 8,
    leadership_management := .num 7, innovation := .num 9,
    compensation_range := .str "150000-200000", currency := .str "USD",
    pros := .str "excellent benefits", cons := .str "tight deadlines" }

/-- A review whose pros and cons both mention a compensation keyword, so
the compensation theme is filed under two polarities at once. -/
def conflictReview : Review :=
  { emptyReview with pros := .str "benefits", cons := .str "pay" }

/-- A review with a truthy non-string pros field; `review[field]` is truthy
so `_analyze_text` is entered and `text.lower()` raises. -/
def badTextReview : Review :=
  { emptyReview with pros := .num 5 }

/-- A review with several malformed fields (string-typed rating,
unparsable salary range) but well-typed text fields. -/
def okReview : Review :=
  { emptyReview with
    pros := .str "good pay", work_life_balance := .str "high",
    compensation_range := .str "abc", currency := .str "USD" }

/-- Ten reviews of which exactly two mention compensation, one positively
and one negatively: each polarity tallies 10 percent, below the 20 percent
inclusion threshold, although the theme occurs in 20 percent of reviews. -/
def prosOnlyReview : Review :=
  { emptyReview with pros := .str "benefits" }

def consOnlyReview : Review :=
  { emptyReview with cons := .str "pay" }

def corpusC8 : List Review :=
  [prosOnlyReview, consOnlyReview] ++ List.replicate 8 emptyReview

def corpusC8Swap : List Review :=
  [consOnlyReview, prosOnlyReview] ++ List.replicate 8 emptyReview

/-- A review whose pros text flags three themes at once (benefits is a
compensation keyword, deadline is both a work_life_balance and a
project_management keyword), all positive, so their percentages tie. -/
def c3TieReview : Review :=
  { emptyReview with pros := .str "benefits deadline" }

def c3Corpus : List Review := [c3TieReview, emptyReview]

def c3CorpusSwap : List Review := [emptyReview, c3TieReview]

/-- The tallied-theme set of `c3Corpus` in catalog order, and a second
legitimate enumeration of the same set. -/
def c3Order1 : List String := ["compensation", "work_life_balance", "project_management"]

def c3Order2 : List String := ["work_life_balance", "compensation", "project_management"]

/-! Helper lemmas. -/

theorem bool_eq_of_iff {a b : Bool} (h : a = true ↔ b = true) : a = b := by
  cases a <;> cases b <;> simp_all

theorem perm_any_eq {α : Type} {l1 l2 : List α} (h : l1.Perm l2) (p : α → Bool) :
    l1.any p = l2.any p := by
  refine bool_eq_of_iff ?_
  simp only [List.any_eq_true]
  exact ⟨fun ⟨x, hx, hp⟩ => ⟨x, h.mem_iff.mp hx, hp⟩,
    fun ⟨x, hx, hp⟩ => ⟨x, h.mem_iff.mpr hx, hp⟩⟩

theorem insertAsc_perm (x : String) (l : List String) :
    (insertAsc x l).Perm (x :: l) := by
  induction l with
  | nil => exact List.Perm.refl _
  | cons y ys ih =>
      unfold insertAsc
      split
      · exact List.Perm.refl _
      · exact (ih.cons y).trans (List.Perm.swap x y ys)

theorem foldl_insertAsc_perm (l acc : List String) :
    (l.foldl (fun a x => insertAsc x a) acc).Perm (acc ++ l) := by
  induction l generalizing acc with
  | nil => simp
  | cons x xs ih =>
      show (xs.foldl (fun a x => insertAsc x a) (insertAsc x acc)).Perm (acc ++ x :: xs)
      refine (ih (insertAsc x acc)).trans ?_
      refine ((insertAsc_perm x acc).append_right xs).trans ?_
      exact List.perm_middle.symm

theorem sortAsc_perm (l : List String) : (sortAsc l).Perm l := by
  simpa using foldl_insertAsc_perm l []

theorem dedupSort_nodup (l : List String) : (dedupSort l).Nodup :=
  ((sortAsc_perm l.dedup).nodup_iff).mpr (List.nodup_dedup l)

theorem insertDescBy_perm {α : Type} (key : α → Int) (x : α) (l : List α) :
    (insertDescBy key x l).Perm (x :: l) := by
  induction l with
  | nil => exact List.Perm.refl _
  | cons y ys ih =>
      unfold insertDescBy
      split
      · exact List.Perm.refl _
      · exact (ih.cons y).trans (List.Perm.swap x y ys)

theorem foldl_insertDescBy_perm {α : Type} (key : α → Int) (l acc : List α) :
    (l.foldl (fun a x => insertDescBy key x a) acc).Perm (acc ++ l) := by
  induction l generalizing acc with
  | nil => simp
  | cons x xs ih =>
      show (xs.foldl (fun a x => insertDescBy key x a) (insertDescBy key x acc)).Perm
        (acc ++ x :: xs)
      refine (ih (insertDescBy key x acc)).trans ?_
      refine ((insertDescBy_perm key x acc).append_right xs).trans ?_
      exact List.perm_middle.symm

theorem sortDescBy_perm {α : Type} (key : α → Int) (l : List α) :
    (sortDescBy key l).Perm l := by
  simpa using foldl_insertDescBy_perm key l []

theorem sortFilterMap_perm {α β : Type} (key : α → Int) (p : α → Bool) (g : α → β)
    {l1 l2 : List α} (h : l1.Perm l2) :
    ((sortDescBy key (l1.filter p)).map g).Perm ((sortDescBy key (l2.filter p)).map g) :=
  ((sortDescBy_perm key _).map g).trans
    (((h.filter p).map g).trans (((sortDescBy_perm key _).map g).symm))

theorem filterMap_id_length {α : Type} {l : List (Option α)}
    (h : l.any (fun o => o.isNone) = false) :
    (l.filterMap id).length = l.length := by
  induction l with
  | nil => rfl
  | cons o t ih =>
      cases o with
      | none => simp at h
      | some a =>
          simp only [List.any_cons, Bool.or_eq_false_iff] at h
          simp [List.filterMap_cons, ih h.2]

theorem textContrib_isSome (scorer : String → Rat) (f : FieldVal)
    (forced : Option Polarity) (h : textFieldOk f = true) :
    (Rev2.textContrib scorer f forced).isSome = true := by
  cases f with
  | absent => rfl
  | str s =>
      simp only [Rev2.textContrib]
      split <;> rfl
  | num q =>
      simp only [textFieldOk, beq_iff_eq] at h
      simp [Rev2.textContrib, h]

/-! Claim theorems.

Batteries marks the rational operations irreducible for the elaborator;
the attribute below restores definitional unfolding so that concrete runs
of the analyzers evaluate by `rfl` and `decide`. -/

attribute [local semireducible] Rat.add Rat.mul Rat.inv

/-- Claim C1 (corrected), counterexample to the claim as stated: the claim
says a rating strictly between LOW = 4 and HIGH = 7 makes the rating
classifier assign the theme neutral, but the flat-catalog implementation
(src/rev2.py) emits no verdict at all there: for a work_life_balance
rating of 5 the returned theme map is empty. -/
theorem c1_counterexample :
    Rev2.analyze_numeric_ratings (wlbReview 5) = [] ∧
    (4 : Rat) < 5 ∧ (5 : Rat) < 7 := by
  refine ⟨rfl, by norm_num, by norm_num⟩

/-- Claim C1 (corrected), amended: for a numeric rating v the classifier
assigns the theme positive exactly when v is at or above HIGH = 7 and
negative exactly when v is at or below LOW = 4, in both implementations
(so a value exactly at HIGH is positive, exactly at LOW negative);
for LOW < v < HIGH the per-polarity implementation (src/tt.py) assigns
neutral while the flat-catalog implementation (src/rev2.py) assigns no
polarity at all, omitting the theme. -/
theorem c1_rating_bands (q : Rat) :
    ((Rev2.analyze_numeric_ratings (wlbReview q)).lookup "work_life_balance" =
      if q ≥ 7 then some Polarity.positive
      else if q ≤ 4 then some Polarity.negative
      else none) ∧
    ((Tt.analyze_numeric_ratings (wlbReview q)).lookup "work_life_balance" =
      if q ≥ 7 then some Polarity.positive
      else if q ≤ 4 then some Polarity.negative
      else some Polarity.neutral) := by
  constructor <;>
  · by_cases h1 : q ≥ 7 <;> by_cases h2 : q ≤ 4 <;>
      simp [Rev2.analyze_numeric_ratings, Tt.analyze_numeric_ratings,
        Rev2.ratingOf, Tt.ratingOf, wlbReview, emptyReview,
        Rev2.RATING_THRESHOLD_HIGH, Rev2.RATING_THRESHOLD_LOW,
        Tt.RATING_THRESHOLD_HIGH, Tt.RATING_THRESHOLD_LOW,
        List.lookup, h1, h2]

/-- Claim C2 (confirmed): on the empty corpus both implementations of
generate_summary return the all-empty Summary and do not fault: with zero
reviews the tally is empty, so the per-theme loop that divides by
total_reviews never runs (the candidate theme list is empty and no
percentage is computed). -/
theorem c2_empty_corpus (scorer : String → Rat) :
    Rev2.generate_summary scorer [] =
      some { positive := [], negative := [], neutral := [] } ∧
    Tt.generate_summary scorer [] =
      some { positive := [], negative := [], neutral := [] } ∧
    Rev2.theme_sentiments (Rev2.tallyOf []) 0 = [] ∧
    Tt.theme_sentiments (Rev2.tallyOf []) 0 = [] :=
  ⟨rfl, rfl, rfl, rfl⟩

/-- Claim C3 (corrected), counterexample to the claim as stated: the
per-bucket sort is stable and keyed only on the rounded percentage, so
themes whose percentages tie keep the iteration order of the Python set
`all_unique_themes` — an order CPython leaves implementation-defined (it
depends on hashes and on insertion history, which follows review order),
so the program does not guarantee it across a permutation of the reviews.
Concretely: on a two-review corpus three themes tie at 50 percent;
`c3Order1` is the tallied-theme set in catalog order and `c3Order2` a
second legitimate enumeration of the same set (a permutation of it), and
running the aggregator on the corpus and on its swap under these two
enumerations yields summaries whose positive groups hold the same strings
in different order.  The "identical Summary, same order" guarantee is
therefore not a property of the program. -/
theorem c3_counterexample :
    c3Corpus.Perm c3CorpusSwap ∧
    Rev2.candidateThemes
      (Rev2.tallyOf (c3Corpus.map (Rev2.analyze_review (fun _ => 0)))) = c3Order1 ∧
    Rev2.candidateThemes
      (Rev2.tallyOf (c3CorpusSwap.map (Rev2.analyze_review (fun _ => 0)))) = c3Order1 ∧
    c3Order1.Perm c3Order2 ∧
    Rev2.generate_summaryOrd c3Order1 (fun _ => 0) c3Corpus ≠
      Rev2.generate_summaryOrd c3Order2 (fun _ => 0) c3CorpusSwap ∧
    (Rev2.generate_summaryOrd c3Order1 (fun _ => 0) c3Corpus).map Summary.positive =
      some ["Competitive compensation and benefits package (50.0% of reviews)",
        "Good work-life balance and flexible scheduling (50.0% of reviews)",
        "Effective project management practices (50.0% of reviews)"] ∧
    (Rev2.generate_summaryOrd c3Order2 (fun _ => 0) c3CorpusSwap).map Summary.positive =
      some ["Good work-life balance and flexible scheduling (50.0% of reviews)",
        "Competitive compensation and benefits package (50.0% of reviews)",
        "Effective project management practices (50.0% of reviews)"] :=
  ⟨List.Perm.swap emptyReview c3TieReview [], rfl, rfl,
    List.Perm.swap "work_life_balance" "compensation" ["project_management"],
    by decide, rfl, rfl⟩

/-- Claim C3 (corrected), amended: under any permutation of the review
list, generate_summary returns a Summary whose polarity groups hold the
same rendered strings — as multisets — and the order is identical whenever
the set `all_unique_themes` is enumerated in the same order; only the
relative order of themes with equal rounded percentages can differ, as it
follows the implementation-defined set enumeration.  Formally: with the
set enumeration held fixed the summaries are equal, and for any two
legitimate enumerations (permutations of one another) the polarity groups
are permutations of one another, in both implementations. -/
theorem c3_content_invariant (scorer : String → Rat) (l1 l2 : List Review)
    (h : l1.Perm l2) :
    (∀ order : List String,
      Rev2.generate_summaryOrd order scorer l1 =
        Rev2.generate_summaryOrd order scorer l2 ∧
      Tt.generate_summaryOrd order scorer l1 =
        Tt.generate_summaryOrd order scorer l2) ∧
    (∀ (o1 o2 : List String) (s1 s2 : Summary), o1.Perm o2 →
      Rev2.generate_summaryOrd o1 scorer l1 = some s1 →
      Rev2.generate_summaryOrd o2 scorer l2 = some s2 →
      s1.positive.Perm s2.positive ∧ s1.negative.Perm s2.negative ∧
        s1.neutral.Perm s2.neutral) ∧
    (∀ (o1 o2 : List String) (s1 s2 : Summary), o1.Perm o2 →
      Tt.generate_summaryOrd o1 scorer l1 = some s1 →
      Tt.generate_summaryOrd o2 scorer l2 = some s2 →
      s1.positive.Perm s2.positive ∧ s1.negative.Perm s2.negative ∧
        s1.neutral.Perm s2.neutral) := by
  have hos1 := h.map (Rev2.analyze_review scorer)
  have hos2 := h.map (Tt.analyze_review scorer)
  have htal1 : Rev2.tallyOf (l1.map (Rev2.analyze_review scorer)) =
      Rev2.tallyOf (l2.map (Rev2.analyze_review scorer)) :=
    funext fun pol => funext fun t => hos1.countP_eq _
  have htal2 : Rev2.tallyOf (l1.map (Tt.analyze_review scorer)) =
      Rev2.tallyOf (l2.map (Tt.analyze_review scorer)) :=
    funext fun pol => funext fun t => hos2.countP_eq _
  refine ⟨fun order => ⟨?_, ?_⟩, ?_, ?_⟩
  · unfold Rev2.generate_summaryOrd
    rw [perm_any_eq hos1, h.length_eq, htal1]
  · unfold Tt.generate_summaryOrd
    rw [perm_any_eq hos2, h.length_eq, htal2]
  · intro o1 o2 s1 s2 ho h1 h2
    unfold Rev2.generate_summaryOrd at h1 h2
    split at h1
    · exact absurd h1 (by simp)
    · split at h2
      · exact absurd h2 (by simp)
      · cases h1
        cases h2
        rw [← htal1, ← h.length_eq]
        have hts : (Rev2.theme_sentimentsOrd o1
              (Rev2.tallyOf (l1.map (Rev2.analyze_review scorer))) l1.length).Perm
            (Rev2.theme_sentimentsOrd o2
              (Rev2.tallyOf (l1.map (Rev2.analyze_review scorer))) l1.length) :=
          ho.filterMap _
        simp only [Rev2.summaryFromTallyOrd, Rev2.bucketOrd]
        exact ⟨sortFilterMap_perm _ _ _ hts, sortFilterMap_perm _ _ _ hts,
          sortFilterMap_perm _ _ _ hts⟩
  · intro o1 o2 s1 s2 ho h1 h2
    unfold Tt.generate_summaryOrd at h1 h2
    split at h1
    · exact absurd h1 (by simp)
    · split at h2
      · exact absurd h2 (by simp)
      · cases h1
        cases h2
        rw [← htal2, ← h.length_eq]
        have hts : (Tt.theme_sentimentsOrd o1
              (Rev2.tallyOf (l1.map (Tt.analyze_review scorer))) l1.length).Perm
            (Tt.theme_sentimentsOrd o2
              (Rev2.tallyOf (l1.map (Tt.analyze_review scorer))) l1.length) :=
          ho.filterMap _
        simp only [Tt.summaryFromTallyOrd, Tt.bucketOrd]
        exact ⟨sortFilterMap_perm _ _ _ hts, sortFilterMap_perm _ _ _ hts,
          sortFilterMap_perm _ _ _ hts⟩

/-- Witness for C3: the ten-review corpus of C8 and its swap, under a
fixed enumeration and under a pair of enumerations. -/
theorem c3_content_invariant_witness :
    (Rev2.generate_summaryOrd ["compensation"] (fun _ => 0) corpusC8 =
        Rev2.generate_summaryOrd ["compensation"] (fun _ => 0) corpusC8Swap ∧
      Tt.generate_summaryOrd ["compensation"] (fun _ => 0) corpusC8 =
        Tt.generate_summaryOrd ["compensation"] (fun _ => 0) corpusC8Swap) ∧
    (([] : List String).Perm [] ∧ ([] : List String).Perm [] ∧
      ([] : List String).Perm []) ∧
    (([] : List String).Perm [] ∧ ([] : List String).Perm [] ∧
      ([] : List String).Perm []) :=
  have hperm : corpusC8.Perm corpusC8Swap :=
    List.Perm.swap consOnlyReview prosOnlyReview (List.replicate 8 emptyReview)
  have T := c3_content_invariant (fun _ => 0) corpusC8 corpusC8Swap hperm
  ⟨T.1 ["compensation"],
    T.2.1 ["compensation"] ["compensation"]
      { positive := [], negative := [], neutral := [] }
      { positive := [], negative := [], neutral := [] }
      (List.Perm.refl _) rfl rfl,
    T.2.2 ["compensation"] ["compensation"]
      { positive := [], negative := [], neutral := [] }
      { positive := [], negative := [], neutral := [] }
      (List.Perm.refl _) rfl rfl⟩

/-- Claim C4 (corrected), counterexample to the claim as stated: a review
whose pros text matches a compensation keyword and whose cons text matches
another puts the compensation theme in the positive and the negative
bucket of the same per-review result. -/
theorem c4_counterexample :
    (Rev2.analyze_review (fun _ => 0) conflictReview).map ReviewResult.positive =
      some ["compensation"] ∧
    (Rev2.analyze_review (fun _ => 0) conflictReview).map ReviewResult.negative =
      some ["compensation"] :=
  ⟨rfl, rfl⟩

/-- Claim C4 (corrected), amended: within each single polarity bucket of a
per-review result a theme appears at most once (every bucket is
deduplicated), but a theme may appear under two different polarities of
the same review when different fields contribute conflicting verdicts. -/
theorem c4_buckets_nodup (scorer : String → Rat) (r : Review)
    (res res2 : ReviewResult)
    (h : Rev2.analyze_review scorer r = some res)
    (h2 : Tt.analyze_review scorer r = some res2) :
    (res.positive.Nodup ∧ res.negative.Nodup ∧ res.neutral.Nodup) ∧
    (res2.positive.Nodup ∧ res2.negative.Nodup ∧ res2.neutral.Nodup) := by
  unfold Rev2.analyze_review at h
  unfold Tt.analyze_review at h2
  split at h
  case _ =>
    split at h2
    case _ =>
      cases h
      cases h2
      exact ⟨⟨dedupSort_nodup _, dedupSort_nodup _, dedupSort_nodup _⟩,
        dedupSort_nodup _, dedupSort_nodup _, dedupSort_nodup _⟩
    case _ => simp at h2
  case _ => simp at h

/-- Witness for C4: the conflicting review analyzed concretely. -/
theorem c4_buckets_nodup_witness :
    Rev2.analyze_review (fun _ => 0) conflictReview =
      some { positive := ["compensation"], negative := ["compensation"], neutral := [] } ∧
    Tt.analyze_review (fun _ => 0) conflictReview =
      some { positive := [], negative := [], neutral := [] } ∧
    ((["compensation"] : List String).Nodup ∧ (["compensation"] : List String).Nodup ∧
      ([] : List String).Nodup) ∧
    (([] : List String).Nodup ∧ ([] : List String).Nodup ∧ ([] : List String).Nodup) :=
  ⟨rfl, rfl,
    c4_buckets_nodup (fun _ => 0) conflictReview _ _ rfl rfl⟩

/-- Claim C5 (confirmed): salary classification is total (it returns a
polarity, the bare except of the source absorbing every parse failure) and
returns neutral on every malformed range text: an empty text, a text that
does not split on the dash into exactly two parts, and a text one of whose
parts holds no digit, in both implementations, for every currency and
location. -/
theorem c5_salary_malformed_neutral (s : String) (cur loc : FieldVal) :
    (s = "" →
      Rev2.analyze_salary_range (.str s) cur = .neutral ∧
      Tt.analyze_salary_range (.str s) cur loc = .neutral) ∧
    ((splitDash s).length ≠ 2 →
      Rev2.analyze_salary_range (.str s) cur = .neutral ∧
      Tt.analyze_salary_range (.str s) cur loc = .neutral) ∧
    ((∃ p ∈ splitDash s, digitsVal p = none) →
      Rev2.analyze_salary_range (.str s) cur = .neutral ∧
      Tt.analyze_salary_range (.str s) cur loc = .neutral) := by
  refine ⟨fun hs => ?_, fun hlen => ?_, fun hdig => ?_⟩
  · subst hs
    constructor <;> simp [Rev2.analyze_salary_range, Tt.analyze_salary_range, truthy]
  · constructor
    all_goals
      simp only [Rev2.analyze_salary_range, Tt.analyze_salary_range]
      split
      case _ =>
        cases hany : ((splitDash s).map digitsVal).any (fun o => o.isNone) with
        | true => simp [hany]
        | false =>
            have hl : (List.filterMap digitsVal (splitDash s)).length ≠ 2 := by
              have hlen2 := filterMap_id_length hany
              rw [List.filterMap_map, Function.id_comp] at hlen2
              rw [hlen2, List.length_map]
              exact hlen
            simp [hany, hl]
      case _ => rfl
  · obtain ⟨p, hp, hnone⟩ := hdig
    have hany : ((splitDash s).map digitsVal).any (fun o => o.isNone) = true :=
      List.any_eq_true.mpr ⟨digitsVal p, List.mem_map_of_mem _ hp, by simp [hnone]⟩
    constructor
    all_goals
      simp only [Rev2.analyze_salary_range, Tt.analyze_salary_range]
      split
      case _ => simp [hany]
      case _ => rfl

/-- Witness for C5: the two example inputs of the spec, empty text and
"not-a-range", both classified neutral in both implementations. -/
theorem c5_salary_malformed_neutral_witness :
    (Rev2.analyze_salary_range (.str "") (.str "USD") = .neutral ∧
      Tt.analyze_salary_range (.str "") (.str "USD") .absent = .neutral) ∧
    (Rev2.analyze_salary_range (.str "not-a-range") (.str "USD") = .neutral ∧
      Tt.analyze_salary_range (.str "not-a-range") (.str "USD") .absent = .neutral) ∧
    (Rev2.analyze_salary_range (.str "abc-def") (.str "USD") = .neutral ∧
      Tt.analyze_salary_range (.str "abc-def") (.str "USD") .absent = .neutral) :=
  ⟨(c5_salary_malformed_neutral "" (.str "USD") .absent).1 rfl,
    (c5_salary_malformed_neutral "not-a-range" (.str "USD") .absent).2.1 (by decide),
    (c5_salary_malformed_neutral "abc-def" (.str "USD") .absent).2.2
      ⟨"abc", by decide, rfl⟩⟩

/-- Claim C6 (corrected), counterexample to the claim as stated: a truthy
non-string text field is not absorbed; `review[field]` passes the
truthiness test, `_analyze_text` calls `text.lower()` on the number and
the AttributeError escapes `analyze_review` (modelled as `none`). -/
theorem c6_counterexample :
    Rev2.analyze_review (fun _ => 0) badTextReview = none ∧
    badTextReview.pros = .num 5 :=
  ⟨rfl, rfl⟩

/-- Claim C6 (corrected), amended: analyze_review never raises provided
every present text field (headline, pros, cons) is a string or falsy;
under that proviso malformed ratings and unparsable salary ranges degrade
to no signal and analysis always completes.  A truthy non-string text
field, however, raises. -/
theorem c6_total_on_string_texts (scorer : String → Rat) (r : Review)
    (h1 : textFieldOk r.headline = true) (h2 : textFieldOk r.pros = true)
    (h3 : textFieldOk r.cons = true) :
    (Rev2.analyze_review scorer r).isSome = true := by
  obtain ⟨a, ha⟩ := Option.isSome_iff_exists.mp (textContrib_isSome scorer r.headline none h1)
  obtain ⟨b, hb⟩ := Option.isSome_iff_exists.mp
    (textContrib_isSome scorer r.pros (some .positive) h2)
  obtain ⟨c, hc⟩ := Option.isSome_iff_exists.mp
    (textContrib_isSome scorer r.cons (some .negative) h3)
  unfold Rev2.analyze_review
  rw [ha, hb, hc]
  rfl

/-- Witness for C6: a review with a wrong-typed rating and an unparsable
salary range still analyzes to a result. -/
theorem c6_total_on_string_texts_witness :
    textFieldOk okReview.headline = true ∧ textFieldOk okReview.pros = true ∧
    textFieldOk okReview.cons = true ∧
    (Rev2.analyze_review (fun _ => 0) okReview).isSome = true :=
  ⟨rfl, rfl, rfl, c6_total_on_string_texts (fun _ => 0) okReview rfl rfl rfl⟩

/-- Claim C7 (corrected), counterexample to the claim as stated: on the
end-to-end example review the leadership_management rating is exactly 7,
which is at the HIGH threshold, so the code classifies leadership positive
and its neutral bucket is empty; the claim says leadership is neutral. -/
theorem c7_counterexample :
    (Rev2.analyze_numeric_ratings c7Review).lookup "leadership" =
      some Polarity.positive ∧
    (Rev2.analyze_review (fun _ => 0) c7Review).map ReviewResult.neutral = some [] :=
  ⟨rfl, rfl⟩

set_option maxHeartbeats 2000000 in
/-- Claim C7 (corrected), amended: on the end-to-end example review the
analysis classifies work_life_balance, career_growth, innovation and also
leadership (exactly at HIGH, and the HIGH boundary is positive per C1) as
positive, and compensation as positive (average 175000 above 100000); the
cons text additionally files work_life_balance and project_management
negative. -/
theorem c7_example_classification (scorer : String → Rat) :
    Rev2.analyze_review scorer c7Review =
      some { positive := ["career_growth", "compensation", "innovation",
                          "leadership", "work_life_balance"],
             negative := ["project_management", "work_life_balance"],
             neutral := [] } :=
  rfl

/-- Claim C8 (corrected), counterexample to the claim as stated: in a
corpus of ten reviews the compensation theme occurs in two (20 percent,
meeting the 20 percent threshold of the flat-catalog implementation), but
once positively and once negatively; each per-polarity percentage is 10,
the maximum percentage stays below the threshold and the rendered summary
is empty. -/
theorem c8_counterexample :
    corpusC8.length = 10 ∧
    Rev2.themeOccurrences (fun _ => 0) corpusC8 "compensation" = 2 ∧
    (20 : Rat) ≤ 100 * 2 / 10 ∧
    Rev2.generate_summary (fun _ => 0) corpusC8 =
      some { positive := [], negative := [], neutral := [] } :=
  ⟨rfl, rfl, by norm_num, rfl⟩

/-- Claim C8 (corrected), amended: a theme appears in the summary
(equivalently, in the theme_sentiments table the summary renders) iff its
dominance-policy percentage meets the deployment threshold: in the
flat-catalog implementation iff the maximum of its three per-polarity
percentages is at least 20, in the per-polarity implementation iff its
policy-B percentage is at least 15 — not iff the fraction of reviews the
theme occurs in meets the threshold. -/
theorem c8_threshold_iff (tally : Polarity → String → Nat) (total : Nat) (t : String) :
    ((∃ pr ∈ Rev2.theme_sentiments tally total, pr.1 = t) ↔
      t ∈ Rev2.themeNames ∧ 20 ≤ Rev2.maxPct tally total t) ∧
    ((∃ pr ∈ Tt.theme_sentiments tally total, pr.1 = t) ↔
      t ∈ Tt.themeNames ∧ 15 ≤ Tt.policyPct tally total t) := by
  constructor
  · simp only [Rev2.theme_sentiments, Rev2.theme_sentimentsOrd, Rev2.candidateThemes,
      List.mem_filterMap, List.mem_filter]
    constructor
    · rintro ⟨pr, ⟨a, ⟨haMem, haSum⟩, hfa⟩, hpr1⟩
      split at hfa
      · cases hfa
        subst hpr1
        exact ⟨haMem, by assumption⟩
      · cases hfa
    · rintro ⟨hMem, hle⟩
      have hsum : tally .positive t + tally .negative t + tally .neutral t ≠ 0 := by
        intro h0
        have hp1 : tally .positive t = 0 := by omega
        have hp2 : tally .negative t = 0 := by omega
        have hp3 : tally .neutral t = 0 := by omega
        rw [Rev2.maxPct, hp1, hp2, hp3] at hle
        simp [Rev2.pctOf] at hle
        norm_num at hle
      rw [Rev2.maxPct] at hle
      refine ⟨(t, Rev2.dominantOf
          (Rev2.pctOf (tally .positive t) total)
          (Rev2.pctOf (tally .negative t) total)
          (Rev2.pctOf (tally .neutral t) total)),
        ⟨t, ⟨hMem, by simp [bne_iff_ne, hsum]⟩, ?_⟩, rfl⟩
      rw [if_pos hle]
  · simp only [Tt.theme_sentiments, Tt.theme_sentimentsOrd, Tt.candidateThemes,
      List.mem_filterMap, List.mem_filter]
    constructor
    · rintro ⟨pr, ⟨a, ⟨haMem, haSum⟩, hfa⟩, hpr1⟩
      split at hfa
      · cases hfa
        subst hpr1
        exact ⟨haMem, by assumption⟩
      · cases hfa
    · rintro ⟨hMem, hle⟩
      have hsum : tally .positive t + tally .negative t + tally .neutral t ≠ 0 := by
        intro h0
        have hp1 : tally .positive t = 0 := by omega
        have hp2 : tally .negative t = 0 := by omega
        have hp3 : tally .neutral t = 0 := by omega
        rw [Tt.policyPct, hp1, hp2, hp3] at hle
        simp [Rev2.pctOf, Tt.dominantOf] at hle
        norm_num at hle
      rw [Tt.policyPct] at hle
      refine ⟨(t, Tt.dominantOf
          (Rev2.pctOf (tally .positive t) total)
          (Rev2.pctOf (tally .negative t) total)
          (Rev2.pctOf (tally .neutral t) total)),
        ⟨t, ⟨hMem, by simp [bne_iff_ne, hsum]⟩, ?_⟩, rfl⟩
      rw [if_pos hle]

/-- Claim C9 (corrected), counterexample to the claim as stated: for the
same well-formed range an empty (falsy) currency flips the verdict from
positive to neutral, because the guard `if not salary_range or not
currency` bails out; currency is therefore not inert. -/
theorem c9_counterexample :
    Tt.analyze_salary_range (.str "150000-200000") (.str "USD") .absent = .positive ∧
    Tt.analyze_salary_range (.str "150000-200000") (.str "") .absent = .neutral :=
  ⟨rfl, rfl⟩

/-- Claim C9 (corrected), amended: for a fixed range text and location the
salary classification is identical for any two truthy currency values:
past the truthiness guard the currency argument is never read, in either
implementation. -/
theorem c9_currency_inert (rng loc c1 c2 : FieldVal)
    (h1 : truthy c1 = true) (h2 : truthy c2 = true) :
    Tt.analyze_salary_range rng c1 loc = Tt.analyze_salary_range rng c2 loc ∧
    Rev2.analyze_salary_range rng c1 = Rev2.analyze_salary_range rng c2 := by
  constructor
  · simp only [Tt.analyze_salary_range, h1, h2]
  · simp only [Rev2.analyze_salary_range, h1, h2]

/-- Witness for C9: a dollar string and a nonzero number as currencies. -/
theorem c9_currency_inert_witness :
    truthy (.str "USD") = true ∧ truthy (.num 1) = true ∧
    (Tt.analyze_salary_range (.str "100000-120000") (.str "USD") .absent =
        Tt.analyze_salary_range (.str "100000-120000") (.num 1) .absent ∧
      Rev2.analyze_salary_range (.str "100000-120000") (.str "USD") =
        Rev2.analyze_salary_range (.str "100000-120000") (.num 1)) :=
  ⟨rfl, rfl, c9_currency_inert (.str "100000-120000") .absent (.str "USD") (.num 1) rfl rfl⟩

/-- Claim C10 (confirmed): in the flat-catalog aggregator, whenever the
positive percentage equals the maximum of the three polarity percentages
and that maximum is positive (true of every tallied theme, whose counts
are not all zero), the dominant polarity is positive — so a
positive/negative tie at the maximum resolves to positive — and neutral
is dominant exactly when its percentage strictly exceeds both others. -/
theorem c10_dominance_positive_bias (pos neg neu : Rat) :
    (max pos (max neg neu) = pos → 0 < max pos (max neg neu) →
      (Rev2.dominantOf pos neg neu).1 = Polarity.positive) ∧
    (0 < max pos (max neg neu) →
      ((Rev2.dominantOf pos neg neu).1 = Polarity.neutral ↔
        pos < neu ∧ neg < neu)) := by
  simp only [Rev2.dominantOf]
  split_ifs with h1 h2
  · refine ⟨fun _ _ => rfl, fun hm => ?_⟩
    constructor
    · intro h
      exact absurd h (by decide)
    · rintro ⟨hpn, _⟩
      have hnu : neu ≤ max pos (max neg neu) := le_max_of_le_right (le_max_right _ _)
      rw [h1.1] at hnu
      exact absurd hpn (not_lt.mpr hnu)
  · refine ⟨fun hp hpos => absurd ⟨hp, hpos⟩ h1, fun hm => ?_⟩
    constructor
    · intro h
      exact absurd h (by decide)
    · rintro ⟨_, hnn⟩
      have hnu : neu ≤ max pos (max neg neu) := le_max_of_le_right (le_max_right _ _)
      rw [h2.1] at hnu
      exact absurd hnn (not_lt.mpr hnu)
  · refine ⟨fun hp hpos => absurd ⟨hp, hpos⟩ h1, fun hm => ?_⟩
    refine ⟨fun _ => ?_, fun _ => rfl⟩
    have hposle : pos ≤ max pos (max neg neu) := le_max_left _ _
    have hnegle : neg ≤ max pos (max neg neu) := le_max_of_le_right (le_max_left _ _)
    have hne1 : max pos (max neg neu) ≠ pos := fun he => h1 ⟨he, hm⟩
    have hne2 : max pos (max neg neu) ≠ neg := fun he => h2 ⟨he, hm⟩
    have hmeq : max pos (max neg neu) = neu := by
      rcases max_choice pos (max neg neu) with h | h
      · exact absurd h hne1
      · rcases max_choice neg neu with hx | hx
        · exact absurd (h.trans hx) hne2
        · exact h.trans hx
    have hplt : pos < max pos (max neg neu) := lt_of_le_of_ne hposle (Ne.symm hne1)
    have hnlt : neg < max pos (max neg neu) := lt_of_le_of_ne hnegle (Ne.symm hne2)
    rw [hmeq] at hplt hnlt
    exact ⟨hplt, hnlt⟩

/-- Witness for C10: a positive/negative tie of 20 against a neutral 10. -/
theorem c10_dominance_positive_bias_witness :
    (max (20 : Rat) (max 20 10) = 20 ∧ (0 : Rat) < max 20 (max 20 10)) ∧
    (Rev2.dominantOf 20 20 10).1 = Polarity.positive ∧
    ((Rev2.dominantOf 20 20 10).1 = Polarity.neutral ↔
      (20 : Rat) < 10 ∧ (20 : Rat) < 10) :=
  ⟨⟨by norm_num, by norm_num⟩,
    (c10_dominance_positive_bias 20 20 10).1 (by norm_num) (by norm_num),
    (c10_dominance_positive_bias 20 20 10).2 (by norm_num)⟩
